import Mathlib

/-!
Verification of the `tracing-xray` crate: a `tracing` subscriber layer that
translates span lifecycle events into AWS X-Ray segment documents.

The crate's entry point (`src/lib.rs`) defines the layer (`XRay`), the
serialized record shape (`SharedData` with its untagged `State`), and the three
`Layer` callbacks `on_new_span`, `on_follows_from` and `on_close`.  The
identifier, header and segment types live in a `types` module whose source is
not part of the repository snapshot; those are modelled from the spec, as
noted on each such definition.

Conventions of the embedding:
- Rust strings that are parsed character by character are `List Char`.
- Clock readings (`Seconds`, floating point epoch seconds in the source) are
  rationals: the code only stamps and compares them, never does arithmetic.
- Random identifier generation and clock reads are passed as explicit
  arguments to the functions that perform them in the source.
- A Rust panic from `.expect(msg)` is `Except.error msg`; per-span extension
  storage (the `tracing` registry) is an association list keyed by span id.
-/

namespace TracingXRay

/-- Modelled from the spec: `Seconds` lives in the missing
`src/types/time.rs`; the spec (section 3) calls it a floating-point epoch
timestamp, immutable once produced. Only stamping and ordering are used, so a
rational carries it faithfully. -/
abbrev Seconds := ℚ

/-- Modelled from the spec: `TraceId` lives in the missing
`src/types/ids.rs`. Section 3: a fixed version marker, an 8-hex-digit
epoch-seconds field and a 24-hex-digit random field; equality structural. -/
structure TraceId where
  epoch : Nat
  random : Nat
deriving DecidableEq

/-- Modelled from the spec: `SegmentId` lives in the missing
`src/types/ids.rs`. Section 3: exactly 16 hex digits, immutable. -/
structure SegmentId where
  val : Nat
deriving DecidableEq

/-- A `TraceId` is in the range the generator produces: the epoch field fits
in 8 hex digits (32 bits of seconds) and the random field in 24 hex digits. -/
def TraceId.wf (t : TraceId) : Prop :=
  t.epoch < 16 ^ 8 ∧ t.random < 16 ^ 24

/-- A `SegmentId` is in the range the generator produces: 16 hex digits. -/
def SegmentId.wf (s : SegmentId) : Prop :=
  s.val < 16 ^ 16

instance (t : TraceId) : Decidable t.wf := by unfold TraceId.wf; infer_instance

instance (s : SegmentId) : Decidable s.wf := by unfold SegmentId.wf; infer_instance

/-- Modelled from the spec: sampling verdict from the missing
`src/types/header.rs` (spec section 3). -/
inductive SamplingDecision
  | Sampled
  | NotSampled
  | Unknown
deriving DecidableEq

/-- Modelled from the spec: parsed trace-context header from the missing
`src/types/header.rs` (spec section 3). -/
structure Header where
  trace_id : TraceId
  parent_id : Option SegmentId
  sampling_decision : SamplingDecision
deriving DecidableEq

/-- Modelled from the spec: identifier parse failures (spec section 4.1). -/
inductive ParseError
  | InvalidLength
  | InvalidHexDigit
deriving DecidableEq

/-- Modelled from the spec: header parse failures (spec section 4.2). -/
inductive HeaderError
  | MissingField
  | MalformedTraceId
  | MalformedSegmentId
  | UnknownSamplingFlag
deriving DecidableEq

/-- Equality on `Except` is decidable when it is on both components; used to
evaluate parse results and callback outcomes on concrete inputs. -/
def exceptDecEq {ε α : Type} [DecidableEq ε] [DecidableEq α] :
    (x y : Except ε α) → Decidable (x = y)
  | .ok a, .ok b =>
    match decEq a b with
    | isTrue h => isTrue (h ▸ rfl)
    | isFalse h => isFalse (fun he => h (Except.ok.inj he))
  | .ok _, .error _ => isFalse (fun h => Except.noConfusion h)
  | .error _, .ok _ => isFalse (fun h => Except.noConfusion h)
  | .error a, .error b =>
    match decEq a b with
    | isTrue h => isTrue (h ▸ rfl)
    | isFalse h => isFalse (fun he => h (Except.error.inj he))

instance {ε α : Type} [DecidableEq ε] [DecidableEq α] : DecidableEq (Except ε α) :=
  exceptDecEq

/-- Lower-case hex digit for a value below 16. -/
def hexChar (n : Nat) : Char :=
  if n < 10 then Char.ofNat (48 + n) else Char.ofNat (87 + n)

/-- Value of a lower-case hex digit, `none` on any other character. -/
def hexVal? (c : Char) : Option Nat :=
  if '0' ≤ c ∧ c ≤ '9' then some (c.toNat - 48)
  else if 'a' ≤ c ∧ c ≤ 'f' then some (c.toNat - 87)
  else none

/-- The number `n` rendered as exactly `k` lower-case hex digits, most
significant first, zero padded, truncated to `k` digits. -/
def natToHex : Nat → Nat → List Char
  | _, 0 => []
  | n, k + 1 => natToHex (n / 16) k ++ [hexChar (n % 16)]

/-- Accumulating hex decoder, most significant digit first. -/
def parseHexAux (acc : Nat) : List Char → Option Nat
  | [] => some acc
  | c :: cs =>
    match hexVal? c with
    | some d => parseHexAux (acc * 16 + d) cs
    | none => none

/-- Decode a list of hex digits, `none` on any non-hex character. -/
def parseHexList (l : List Char) : Option Nat :=
  parseHexAux 0 l

/-- Modelled from the spec: canonical form of a `TraceId` (missing
`src/types/ids.rs`; spec sections 3 and 6): the version marker `1`, a dash,
8 hex digits of epoch seconds, a dash, 24 random hex digits. -/
def formatTraceId (t : TraceId) : List Char :=
  '1' :: '-' :: (natToHex t.epoch 8 ++ '-' :: natToHex t.random 24)

/-- Modelled from the spec: canonical form of a `SegmentId` (missing
`src/types/ids.rs`; spec section 3): exactly 16 hex digits. -/
def formatSegmentId (s : SegmentId) : List Char :=
  natToHex s.val 16

/-- Modelled from the spec: `TraceId` parsing from the missing
`src/types/ids.rs` (spec section 4.1): fails with `InvalidLength` or
`InvalidHexDigit` on malformed input, never panics. -/
def parseTraceId (l : List Char) : Except ParseError TraceId :=
  match l with
  | '1' :: '-' :: rest =>
    match rest.drop 8 with
    | '-' :: r =>
      if (rest.take 8).length = 8 ∧ r.length = 24 then
        match parseHexList (rest.take 8), parseHexList r with
        | some ev, some rv => .ok ⟨ev, rv⟩
        | _, _ => .error .InvalidHexDigit
      else .error .InvalidLength
    | _ => .error .InvalidLength
  | _ => .error .InvalidLength

/-- Modelled from the spec: `SegmentId` parsing from the missing
`src/types/ids.rs` (spec section 4.1). -/
def parseSegmentId (l : List Char) : Except ParseError SegmentId :=
  if l.length = 16 then
    match parseHexList l with
    | some v => .ok ⟨v⟩
    | none => .error .InvalidHexDigit
  else .error .InvalidLength

/-- Split on `;`, the header field separator; never returns `[]`. -/
def splitSemi : List Char → List (List Char)
  | [] => [[]]
  | c :: rest =>
    if c = ';' then [] :: splitSemi rest
    else
      match splitSemi rest with
      | [] => [[c]]
      | h :: t => (c :: h) :: t

/-- Strip an expected leading tag (such as `Root=`) from a field. -/
def stripTag : List Char → List Char → Option (List Char)
  | [], l => some l
  | _ :: _, [] => none
  | a :: p, b :: l => if a = b then stripTag p l else none

def rootTag : List Char := ['R', 'o', 'o', 't', '=']

def parentTag : List Char := ['P', 'a', 'r', 'e', 'n', 't', '=']

def sampledTag : List Char := ['S', 'a', 'm', 'p', 'l', 'e', 'd', '=']

/-- Modelled from the spec: the third step of header parsing from the
missing `src/types/header.rs` (spec sections 4.2 and 6): at this point an
optional `Sampled=` field remains; `0` is NotSampled, `1` is Sampled, an
entirely absent field is Unknown, and a present but unrecognized field is the
hard error `UnknownSamplingFlag`. -/
def parseSampledField (tid : TraceId) (pid : Option SegmentId) :
    List (List Char) → Except HeaderError Header
  | [] => .ok ⟨tid, pid, SamplingDecision.Unknown⟩
  | p :: ps =>
    match stripTag sampledTag p with
    | none => .error .UnknownSamplingFlag
    | some v =>
      if ps = [] then
        if v = ['0'] then .ok ⟨tid, pid, SamplingDecision.NotSampled⟩
        else if v = ['1'] then .ok ⟨tid, pid, SamplingDecision.Sampled⟩
        else .error .UnknownSamplingFlag
      else .error .UnknownSamplingFlag

/-- Modelled from the spec: the second step of header parsing (missing
`src/types/header.rs`; spec sections 4.2 and 6): an optional `Parent=` field,
whose value must be a well-formed segment id, else `MalformedSegmentId`. -/
def parseParentField (tid : TraceId) :
    List (List Char) → Except HeaderError Header
  | [] => .ok ⟨tid, none, SamplingDecision.Unknown⟩
  | p :: ps =>
    match stripTag parentTag p with
    | some s =>
      match parseSegmentId s with
      | .ok sid => parseSampledField tid (some sid) ps
      | .error _ => .error .MalformedSegmentId
    | none => parseSampledField tid none (p :: ps)

/-- The trace id value of the `Root=` field has been isolated; parse it and
continue with the remaining fields. -/
def parseRootValue (s : List Char) (ps : List (List Char)) : Except HeaderError Header :=
  match parseTraceId s with
  | .ok tid => parseParentField tid ps
  | .error _ => .error .MalformedTraceId

/-- The first step of header parsing on the `;`-separated fields: the
mandatory `Root=` field. -/
def parseRootParts : List (List Char) → Except HeaderError Header
  | [] => .error .MissingField
  | p :: ps =>
    match stripTag rootTag p with
    | none => .error .MissingField
    | some s => parseRootValue s ps

/-- Modelled from the spec: header parsing from the missing
`src/types/header.rs` (spec sections 4.2 and 6). Fields are separated by `;`
in the fixed order Root, optional Parent, optional Sampled; a missing `Root`
is `MissingField`, a bad trace id is `MalformedTraceId`. -/
def parseHeader (raw : List Char) : Except HeaderError Header :=
  parseRootParts (splitSemi raw)

/-- The `Root=...` field, plus the optional `;Parent=...` field, of a
formatted header. -/
def headerBase (tid : TraceId) (pid : Option SegmentId) : List Char :=
  rootTag ++ formatTraceId tid ++
    (match pid with
     | none => []
     | some p => ';' :: (parentTag ++ formatSegmentId p))

/-- Modelled from the spec: header formatting from the missing
`src/types/header.rs` (spec sections 4.2 and 6): canonical order
Root;Parent;Sampled, Parent omitted when absent, `Sampled=0` for NotSampled,
`Sampled=1` for Sampled, the field omitted for Unknown (the grammar has no
encoding for Unknown and parse maps an absent field to Unknown). -/
def formatHeader (h : Header) : List Char :=
  headerBase h.trace_id h.parent_id ++
    (match h.sampling_decision with
     | SamplingDecision.Unknown => []
     | SamplingDecision.NotSampled => ';' :: (sampledTag ++ ['0'])
     | SamplingDecision.Sampled => ';' :: (sampledTag ++ ['1']))

/-- The two-state lifecycle from `src/lib.rs` (`enum State`): `Done` carries
the close time, `InProgress` carries the boolean marker; the Rust `Default`
is `InProgress` with the marker set to `true`. -/
inductive State
  | Done (end_time : Seconds)
  | InProgress (in_progress : Bool)
deriving DecidableEq

/-- The serialized record shape from `src/lib.rs` (`struct SharedData`):
trace id, segment id, name, start time, and the flattened state. -/
structure SharedData where
  trace_id : TraceId
  id : SegmentId
  name : String
  start_time : Seconds
  state : State
deriving DecidableEq

/-- Modelled from the spec: the per-unit-of-work record from the missing
`src/types/types.rs` (spec section 3): the `SharedData` fields plus the
optional parent link and resource tag that `src/lib.rs` assigns
(`data.parent_id`, `data.resource_arn`). -/
structure Segment where
  trace_id : TraceId
  id : SegmentId
  name : String
  start_time : Seconds
  parent_id : Option SegmentId
  resource_arn : Option String
  state : State
deriving DecidableEq

/-- Modelled from the spec: `Segment::begin` from the missing
`src/types/types.rs` (spec section 4.3): the only constructor; sets `id`,
`start_time`, a freshly generated `trace_id` and `state = InProgress`,
leaving `parent_id` and `resource_arn` unset. The freshly generated
identifiers and the clock reading are explicit arguments. -/
def Segment.begin (name : String) (tid : TraceId) (sid : SegmentId)
    (t : Seconds) : Segment :=
  { trace_id := tid, id := sid, name := name, start_time := t,
    parent_id := none, resource_arn := none,
    state := State.InProgress true }

/-- Modelled from the spec: the fault `Segment::end` signals on a duplicate
close (spec section 4.3: a reportable fault, not a silent no-op). -/
inductive EndError
  | AlreadyDone
deriving DecidableEq

/-- Modelled from the spec: `Segment::end` from the missing
`src/types/types.rs` (spec section 4.3): the only transition, InProgress to
`Done` stamped with `end_time = now()`; on an already-Done segment it signals
a reportable fault instead. The clock reading is an explicit argument. -/
def Segment.end' (s : Segment) (t : Seconds) : Except EndError Segment :=
  match s.state with
  | State.InProgress _ => .ok { s with state := State.Done t }
  | State.Done _ => .error EndError.AlreadyDone

/-- Keys of the output segment document (spec section 6). -/
inductive FieldKey
  | trace_id
  | id
  | name
  | start_time
  | end_time
  | in_progress
deriving DecidableEq

/-- JSON-shaped field values of the output document. -/
inductive JVal
  | str (s : List Char)
  | num (q : ℚ)
  | bool (b : Bool)
deriving DecidableEq

/-- Serialization of `State` per the serde attributes in `src/lib.rs`: the
enum is untagged, so `Done` contributes only its `end_time` field and
`InProgress` only its `in_progress` field. -/
def State.serialize : State → List (FieldKey × JVal)
  | State.Done e => [(FieldKey.end_time, JVal.num e)]
  | State.InProgress b => [(FieldKey.in_progress, JVal.bool b)]

/-- Serialization of `SharedData` per `src/lib.rs`: the four plain fields in
declaration order, then the flattened state. -/
def SharedData.serialize (d : SharedData) : List (FieldKey × JVal) :=
  [(FieldKey.trace_id, JVal.str (formatTraceId d.trace_id)),
   (FieldKey.id, JVal.str (formatSegmentId d.id)),
   (FieldKey.name, JVal.str d.name.data),
   (FieldKey.start_time, JVal.num d.start_time)]
  ++ d.state.serialize

/-- First value bound to a key in a serialized document. -/
def lookupField : List (FieldKey × JVal) → FieldKey → Option JVal
  | [], _ => none
  | (k, v) :: rest, key => if k = key then some v else lookupField rest key

/-- Unit-of-work (span) identity, `tracing::span::Id`. -/
abbrev SpanId := Nat

/-- The host framework state the three callbacks touch: which spans exist in
the registry (`ctx.span(id)`), and each span's extension storage holding at
most one `Segment` (an association list where the most recent insertion for a
key shadows older ones, matching `extensions_mut().insert`). -/
structure TState where
  registry : List SpanId
  ext : List (SpanId × Segment)
deriving DecidableEq

/-- Reading `extensions().get::<Segment>()` for a span. -/
def TState.lookupExt (st : TState) (id : SpanId) : Option Segment :=
  st.ext.lookup id

/-- Writing `extensions_mut().insert(data)` for a span (also used for
in-place mutation through `get_mut`, which this shadowing insert models up to
`lookupExt`). -/
def TState.insertExt (st : TState) (id : SpanId) (s : Segment) : TState :=
  { st with ext := (id, s) :: st.ext }

/-- The callback `XRay::on_new_span` from `src/lib.rs`. `resource_arn` is the
layer's configuration; `attr` is the value of the `x-amzn-trace-id` attribute
as delivered by the host framework, when present; `freshTid`, `freshSid` and
`now` are the identifier-generator and clock reads `Segment::begin` performs.
A Rust panic (from `.expect`) is `Except.error` with the panic message. -/
def XRay.on_new_span (resource_arn : Option String) (name : String)
    (attr : Option (List Char)) (id : SpanId)
    (freshTid : TraceId) (freshSid : SegmentId) (now : Seconds)
    (st : TState) : Except String TState :=
  let data := Segment.begin name freshTid freshSid now
  match attr with
  | some raw =>
    match parseHeader raw with
    | .error _ => .error "Unstable to parse header"
    | .ok header =>
      if header.sampling_decision = SamplingDecision.NotSampled then .ok st
      else
        let data := { data with trace_id := header.trace_id,
                                parent_id := header.parent_id }
        let data := { data with resource_arn := resource_arn }
        if id ∈ st.registry then .ok (st.insertExt id data)
        else .error "in on_new_span but span does not exist"
  | none =>
    let data := { data with resource_arn := resource_arn }
    if id ∈ st.registry then .ok (st.insertExt id data)
    else .error "in on_new_span but span does not exist"

/-- The callback `XRay::on_follows_from` from `src/lib.rs`: look up both
spans and their stored segments (each absence is an `.expect` panic), then
set the follower's `parent_id` to the followed segment's `id`. -/
def XRay.on_follows_from (id follows : SpanId) (st : TState) :
    Except String TState :=
  if id ∈ st.registry then
    match st.lookupExt id with
    | none => .error "span does not have XRay segment"
    | some data =>
      if follows ∈ st.registry then
        match st.lookupExt follows with
        | none => .error "span does not have XRay segment"
        | some follows_data =>
          .ok (st.insertExt id { data with parent_id := some follows_data.id })
      else .error "Span to follow not found, this is a bug"
  else .error "Span not found, this is a bug"

/-- The callback `XRay::on_close` from `src/lib.rs`: look up the span and its
stored segment (each absence is an `.expect` panic) and call `end()` on it;
the duplicate-close fault of `Segment::end` (spec section 4.3) surfaces as an
error. -/
def XRay.on_close (id : SpanId) (now : Seconds) (st : TState) :
    Except String TState :=
  if id ∈ st.registry then
    match st.lookupExt id with
    | none => .error "span does not have XRay segment"
    | some data =>
      match data.end' now with
      | .ok d => .ok (st.insertExt id d)
      | .error _ => .error "duplicate close of an already-Done segment"
  else .error "in on_close but span does not exist"

/-- Concrete trace id used by witnesses: epoch `5f84c7c1`, random
`0123456789abcdef01234567`. -/
def tid0 : TraceId := ⟨0x5f84c7c1, 0x0123456789abcdef01234567⟩

/-- Concrete segment id used by witnesses: `abcdef0123456789`. -/
def sid0 : SegmentId := ⟨0xabcdef0123456789⟩

/-- A concrete inbound header carrying an unsampled verdict. -/
def hdrNotSampledRaw : List Char :=
  ("Root=1-5f84c7c1-0123456789abcdef01234567;Sampled=0").data

/-- The parse of `hdrNotSampledRaw`. -/
def hdrNotSampled : Header := ⟨tid0, none, SamplingDecision.NotSampled⟩

/-- A host-framework state with one registered span and empty extension
storage. -/
def stEmpty1 : TState := ⟨[1], []⟩

/-- Concrete segment stored for span 1 in `stAB`. -/
def segA : Segment := Segment.begin "a" ⟨1, 2⟩ ⟨10⟩ 0

/-- Concrete segment stored for span 2 in `stAB`. -/
def segB : Segment := Segment.begin "b" ⟨3, 4⟩ ⟨20⟩ 0

/-- A host-framework state with two registered spans, each holding a
segment. -/
def stAB : TState := ⟨[1, 2], [(1, segA), (2, segB)]⟩

/-- A concrete segment that has already reached the Done state. -/
def segDone : Segment :=
  { trace_id := ⟨1, 2⟩, id := ⟨10⟩, name := "a", start_time := 0,
    parent_id := none, resource_arn := none, state := State.Done 2 }

/-- A concrete record in the Done state, for serialization witnesses. -/
def dataDone : SharedData :=
  { trace_id := tid0, id := sid0, name := "svc", start_time := 1,
    state := State.Done 5 }

/-! ## Hex lemmas -/

theorem natToHex_length (n k : Nat) : (natToHex n k).length = k := by
  induction k generalizing n with
  | zero => rfl
  | succ k ih => simp [natToHex, ih]

theorem hexVal_hexChar (d : Nat) (h : d < 16) : hexVal? (hexChar d) = some d := by
  interval_cases d <;> rfl

theorem mem_natToHex_isHexDigit (n k : Nat) (c : Char) (h : c ∈ natToHex n k) :
    (hexVal? c).isSome := by
  induction k generalizing n with
  | zero => simp [natToHex] at h
  | succ k ih =>
    simp only [natToHex, List.mem_append, List.mem_singleton] at h
    rcases h with h | h
    · exact ih _ h
    · subst h
      rw [hexVal_hexChar (n % 16) (Nat.mod_lt _ (by norm_num))]
      rfl

theorem semi_not_mem_natToHex (n k : Nat) : ';' ∉ natToHex n k := by
  intro h
  have := mem_natToHex_isHexDigit n k ';' h
  simp [hexVal?] at this

theorem parseHexAux_append (acc : Nat) (a b : List Char) :
    parseHexAux acc (a ++ b) =
      match parseHexAux acc a with
      | some m => parseHexAux m b
      | none => none := by
  induction a generalizing acc with
  | nil => simp [parseHexAux]
  | cons c cs ih =>
    simp only [List.cons_append, parseHexAux]
    cases hexVal? c with
    | none => rfl
    | some d => exact ih _

theorem parseHexAux_natToHex (k n acc : Nat) (h : n < 16 ^ k) :
    parseHexAux acc (natToHex n k) = some (acc * 16 ^ k + n) := by
  induction k generalizing n acc with
  | zero =>
    interval_cases n
    simp [natToHex, parseHexAux]
  | succ k ih =>
    have hdiv : n / 16 < 16 ^ k := by
      rw [Nat.div_lt_iff_lt_mul (by norm_num)]
      calc n < 16 ^ (k + 1) := h
        _ = 16 ^ k * 16 := by ring
    rw [natToHex, parseHexAux_append, ih (n / 16) acc hdiv]
    simp only [parseHexAux, hexVal_hexChar (n % 16) (Nat.mod_lt _ (by norm_num))]
    congr 1
    calc (acc * 16 ^ k + n / 16) * 16 + n % 16
        = acc * (16 ^ k * 16) + (n / 16 * 16 + n % 16) := by ring
      _ = acc * 16 ^ (k + 1) + n := by
            rw [show n / 16 * 16 + n % 16 = n by omega]; ring

theorem parseHexList_natToHex (k n : Nat) (h : n < 16 ^ k) :
    parseHexList (natToHex n k) = some n := by
  rw [parseHexList, parseHexAux_natToHex k n 0 h]
  simp

/-! ## Identifier round-trip lemmas -/

theorem parseTraceId_format (t : TraceId) (h : t.wf) :
    parseTraceId (formatTraceId t) = .ok t := by
  obtain ⟨he, hr⟩ := h
  have e8 : (natToHex t.epoch 8).length = 8 := natToHex_length _ _
  have r24 : (natToHex t.random 24).length = 24 := natToHex_length _ _
  rw [formatTraceId, parseTraceId]
  simp only [List.drop_left' e8, List.take_left' e8, e8, r24, and_self, if_true,
    parseHexList_natToHex 8 t.epoch he, parseHexList_natToHex 24 t.random hr]

theorem parseSegmentId_format (s : SegmentId) (h : s.wf) :
    parseSegmentId (formatSegmentId s) = .ok s := by
  rw [formatSegmentId, parseSegmentId]
  simp only [natToHex_length, if_true, parseHexList_natToHex 16 s.val h]

/-! ## Header parsing lemmas -/

theorem stripTag_append (p s : List Char) : stripTag p (p ++ s) = some s := by
  induction p with
  | nil => rfl
  | cons a p ih => simp [stripTag, ih]

theorem splitSemi_cons_left (a : List Char) (l : List Char) (h : ';' ∉ a)
    (x : List Char) (xs : List (List Char)) (hl : splitSemi l = x :: xs) :
    splitSemi (a ++ l) = (a ++ x) :: xs := by
  induction a with
  | nil => simpa using hl
  | cons c a ih =>
    have hc : c ≠ ';' := fun hc => h (hc ▸ List.mem_cons_self c a)
    have hm : ';' ∉ a := fun hm => h (List.mem_cons_of_mem c hm)
    show splitSemi (c :: (a ++ l)) = (c :: (a ++ x)) :: xs
    rw [splitSemi, if_neg hc, ih hm]

theorem splitSemi_no_semi (a : List Char) (h : ';' ∉ a) : splitSemi a = [a] := by
  have := splitSemi_cons_left a [] h [] [] rfl
  simpa using this

theorem splitSemi_semi (l : List Char) : splitSemi (';' :: l) = [] :: splitSemi l := by
  simp [splitSemi]

theorem semi_not_mem_formatTraceId (t : TraceId) : ';' ∉ formatTraceId t := by
  intro h
  rw [formatTraceId] at h
  rcases List.mem_cons.mp h with h | h
  · exact absurd h (by decide)
  rcases List.mem_cons.mp h with h | h
  · exact absurd h (by decide)
  rcases List.mem_append.mp h with h | h
  · exact semi_not_mem_natToHex _ _ h
  rcases List.mem_cons.mp h with h | h
  · exact absurd h (by decide)
  · exact semi_not_mem_natToHex _ _ h

theorem semi_not_mem_formatSegmentId (s : SegmentId) : ';' ∉ formatSegmentId s :=
  semi_not_mem_natToHex _ _

theorem semi_not_mem_rootField (tid : TraceId) : ';' ∉ rootTag ++ formatTraceId tid := by
  intro h
  rcases List.mem_append.mp h with h | h
  · exact absurd h (by decide)
  · exact semi_not_mem_formatTraceId tid h

theorem semi_not_mem_parentField (p : SegmentId) :
    ';' ∉ parentTag ++ formatSegmentId p := by
  intro h
  rcases List.mem_append.mp h with h | h
  · exact absurd h (by decide)
  · exact semi_not_mem_formatSegmentId p h

theorem stripTag_parent_of_sampled (v : List Char) :
    stripTag parentTag (sampledTag ++ v) = none := by
  rw [parentTag, sampledTag]
  rfl

/-- The split of the formatted base followed by one more field. -/
theorem splitSemi_base_cons (tid : TraceId) (pid : Option SegmentId)
    (q : List Char) (hq : ';' ∉ q) :
    splitSemi (headerBase tid pid ++ ';' :: q)
      = (rootTag ++ formatTraceId tid) ::
          (match pid with
           | none => [q]
           | some p => (parentTag ++ formatSegmentId p) :: [q]) := by
  cases pid with
  | none =>
    have h1 : splitSemi (';' :: q) = [] :: [q] := by
      rw [splitSemi_semi, splitSemi_no_semi q hq]
    have := splitSemi_cons_left (rootTag ++ formatTraceId tid) (';' :: q)
      (semi_not_mem_rootField tid) [] [q] h1
    rw [headerBase]
    simpa using this
  | some p =>
    have h1 : splitSemi (';' :: q) = [] :: [q] := by
      rw [splitSemi_semi, splitSemi_no_semi q hq]
    have h2 : splitSemi ((parentTag ++ formatSegmentId p) ++ ';' :: q)
        = (parentTag ++ formatSegmentId p) :: [q] := by
      have := splitSemi_cons_left (parentTag ++ formatSegmentId p) (';' :: q)
        (semi_not_mem_parentField p) [] [q] h1
      simpa using this
    have h3 : splitSemi (';' :: ((parentTag ++ formatSegmentId p) ++ ';' :: q))
        = [] :: (parentTag ++ formatSegmentId p) :: [q] := by
      rw [splitSemi_semi, h2]
    have h4 := splitSemi_cons_left (rootTag ++ formatTraceId tid)
      (';' :: ((parentTag ++ formatSegmentId p) ++ ';' :: q))
      (semi_not_mem_rootField tid) [] ((parentTag ++ formatSegmentId p) :: [q]) h3
    rw [headerBase]
    have harr : (rootTag ++ formatTraceId tid ++
          ';' :: (parentTag ++ formatSegmentId p)) ++ ';' :: q
        = (rootTag ++ formatTraceId tid) ++
          ';' :: ((parentTag ++ formatSegmentId p) ++ ';' :: q) := by
      simp
    rw [harr, h4]
    simp

/-- Parsing a formatted `Root` field plus optional `Parent` field followed by
one more field that is not a `Parent` field reduces to `parseSampledField` on
that field. -/
theorem parseHeader_base_cons (tid : TraceId) (pid : Option SegmentId)
    (hw : tid.wf) (hpw : ∀ p ∈ pid, p.wf) (q : List Char) (hq : ';' ∉ q)
    (hnp : stripTag parentTag q = none) :
    parseHeader (headerBase tid pid ++ ';' :: q) = parseSampledField tid pid [q] := by
  rw [parseHeader, splitSemi_base_cons tid pid q hq]
  cases pid with
  | none =>
    simp only [parseRootParts, stripTag_append, parseRootValue,
      parseTraceId_format tid hw, parseParentField, hnp]
  | some p =>
    simp only [parseRootParts, stripTag_append, parseRootValue,
      parseTraceId_format tid hw, parseParentField,
      parseSegmentId_format p (hpw p rfl)]

/-- Parsing a formatted `Root` field plus optional `Parent` field with no
sampling field at all yields an `Unknown` sampling decision. -/
theorem parseHeader_base_nil (tid : TraceId) (pid : Option SegmentId)
    (hw : tid.wf) (hpw : ∀ p ∈ pid, p.wf) :
    parseHeader (headerBase tid pid) = .ok ⟨tid, pid, SamplingDecision.Unknown⟩ := by
  cases pid with
  | none =>
    rw [parseHeader, headerBase]
    simp only [List.append_nil]
    rw [splitSemi_no_semi _ (semi_not_mem_rootField tid)]
    simp only [parseRootParts, stripTag_append, parseRootValue,
      parseTraceId_format tid hw, parseParentField]
  | some p =>
    have h2 : splitSemi (';' :: (parentTag ++ formatSegmentId p))
        = [] :: [parentTag ++ formatSegmentId p] := by
      rw [splitSemi_semi, splitSemi_no_semi _ (semi_not_mem_parentField p)]
    have h3 := splitSemi_cons_left (rootTag ++ formatTraceId tid)
      (';' :: (parentTag ++ formatSegmentId p))
      (semi_not_mem_rootField tid) [] [parentTag ++ formatSegmentId p] h2
    rw [parseHeader, headerBase]
    rw [show rootTag ++ formatTraceId tid ++ ';' :: (parentTag ++ formatSegmentId p)
      = (rootTag ++ formatTraceId tid) ++ ';' :: (parentTag ++ formatSegmentId p) by simp]
    rw [h3]
    simp only [List.append_nil, parseRootParts, stripTag_append, parseRootValue,
      parseTraceId_format tid hw, parseParentField,
      parseSegmentId_format p (hpw p rfl), parseSampledField]

/-- Evaluation of `parseSampledField` on a single `Sampled=<v>` field. -/
theorem parseSampledField_single (tid : TraceId) (pid : Option SegmentId)
    (v : List Char) :
    parseSampledField tid pid [sampledTag ++ v]
      = (if v = ['0'] then .ok ⟨tid, pid, SamplingDecision.NotSampled⟩
         else if v = ['1'] then .ok ⟨tid, pid, SamplingDecision.Sampled⟩
         else .error HeaderError.UnknownSamplingFlag) := by
  rw [parseSampledField, stripTag_append]
  simp

/-- A well-formedness fact transported along `Option` membership. -/
theorem wf_of_mem_some {s p : SegmentId} (hs : s.wf) (hp : p ∈ some s) : p.wf := by
  rw [Option.mem_def, Option.some_inj] at hp
  exact hp ▸ hs

/-! ## Claims -/

/-- C1: the claim says that when the start handler receives a trace-context
header attribute whose string fails to parse, the process is not aborted and
the unit of work proceeds as a fresh trace root. The code in `src/lib.rs`
instead calls `.expect("Unstable to parse header")` on the parse result, so
on any unparsable attribute string (here `garbage`) `on_new_span` panics and
no segment is produced at all. -/
theorem C1_on_new_span_panics_on_unparsable_header :
    XRay.on_new_span none "handler" (some ("garbage").data) 1 ⟨0, 0⟩ ⟨0⟩ 0 stEmpty1
      = .error "Unstable to parse header" := by
  rfl

/-- C2: header parsing maps the sampling field as follows: a `Sampled=0`
field yields NotSampled, `Sampled=1` yields Sampled, a completely absent
sampling field yields Unknown, and a present but unrecognized sampling value
fails with `UnknownSamplingFlag` rather than defaulting to Unknown. -/
theorem C2_sampling_field_mapping (tid : TraceId) (pid : Option SegmentId)
    (hw : tid.wf) (hpw : ∀ p ∈ pid, p.wf) (v : List Char) (hv : ';' ∉ v) :
    parseHeader (headerBase tid pid ++ ';' :: (sampledTag ++ v))
      = (if v = ['0'] then .ok ⟨tid, pid, SamplingDecision.NotSampled⟩
         else if v = ['1'] then .ok ⟨tid, pid, SamplingDecision.Sampled⟩
         else .error HeaderError.UnknownSamplingFlag) ∧
    parseHeader (headerBase tid pid) = .ok ⟨tid, pid, SamplingDecision.Unknown⟩ := by
  constructor
  · have hq : ';' ∉ sampledTag ++ v := by
      intro h
      rcases List.mem_append.mp h with h | h
      · exact absurd h (by decide)
      · exact hv h
    rw [parseHeader_base_cons tid pid hw hpw _ hq (stripTag_parent_of_sampled v),
      parseSampledField_single]
  · exact parseHeader_base_nil tid pid hw hpw

/-- Witness for C2 at a concrete header: `Sampled=2` is rejected with
`UnknownSamplingFlag` and the absent field maps to Unknown. -/
theorem C2_sampling_field_mapping_witness :
    parseHeader (headerBase tid0 (some sid0) ++ ';' :: (sampledTag ++ ['2']))
      = .error HeaderError.UnknownSamplingFlag ∧
    parseHeader (headerBase tid0 (some sid0))
      = .ok ⟨tid0, some sid0, SamplingDecision.Unknown⟩ := by
  have h := C2_sampling_field_mapping tid0 (some sid0) (by decide)
    (fun p hp => wf_of_mem_some (by decide) hp) ['2'] (by decide)
  exact ⟨h.1.trans (by decide), h.2⟩

/-- C3: whenever the inbound header attribute parses with a NotSampled
verdict, `on_new_span` returns with the host state untouched: no segment is
attached to the unit of work's storage slot. -/
theorem C3_not_sampled_attaches_no_segment (arn : Option String) (name : String)
    (raw : List Char) (id : SpanId) (tid : TraceId) (sid : SegmentId)
    (now : Seconds) (st : TState) (h : Header)
    (hp : parseHeader raw = .ok h)
    (hs : h.sampling_decision = SamplingDecision.NotSampled) :
    XRay.on_new_span arn name (some raw) id tid sid now st = .ok st := by
  simp [XRay.on_new_span, hp, hs]

/-- Witness for C3 at a concrete `Sampled=0` header and a concrete state. -/
theorem C3_not_sampled_attaches_no_segment_witness :
    XRay.on_new_span none "svc" (some hdrNotSampledRaw) 1 ⟨0, 0⟩ ⟨0⟩ 0 stEmpty1
      = .ok stEmpty1 :=
  C3_not_sampled_attaches_no_segment none "svc" hdrNotSampledRaw 1 ⟨0, 0⟩ ⟨0⟩ 0
    stEmpty1 hdrNotSampled (by decide) rfl

/-- C4: when unit `a` follows unit `b` and both have stored segments,
`on_follows_from` succeeds and rewrites `a`'s segment so that its
`parent_id` is exactly `b`'s segment id, regardless of any parent `a`'s
segment carried before (such as one inherited from a header). -/
theorem C4_follows_from_overrides_parent (a b : SpanId) (st : TState)
    (da db : Segment) (_hab : a ≠ b)
    (hra : a ∈ st.registry) (hrb : b ∈ st.registry)
    (ha : st.lookupExt a = some da) (hb : st.lookupExt b = some db) :
    XRay.on_follows_from a b st
      = .ok (st.insertExt a { da with parent_id := some db.id }) ∧
    (st.insertExt a { da with parent_id := some db.id }).lookupExt a
      = some { da with parent_id := some db.id } := by
  constructor
  · simp [XRay.on_follows_from, hra, hrb, ha, hb]
  · simp [TState.insertExt, TState.lookupExt, List.lookup]

/-- Witness for C4 on a concrete two-span state. -/
theorem C4_follows_from_overrides_parent_witness :
    XRay.on_follows_from 1 2 stAB
      = .ok (stAB.insertExt 1 { segA with parent_id := some segB.id }) ∧
    (stAB.insertExt 1 { segA with parent_id := some segB.id }).lookupExt 1
      = some { segA with parent_id := some segB.id } :=
  C4_follows_from_overrides_parent 1 2 stAB segA segB (by decide)
    (by decide) (by decide) rfl rfl

/-- C5: the serialized document of a Done record contains `end_time` and no
in-progress marker; that of an InProgress record contains the boolean
in-progress marker and no `end_time`; and for every record exactly one of the
two fields is present. -/
theorem C5_untagged_state_serialization (d : SharedData) :
    (∀ e, d.state = State.Done e →
      lookupField d.serialize FieldKey.end_time = some (JVal.num e) ∧
      lookupField d.serialize FieldKey.in_progress = none) ∧
    (d.state = State.InProgress true →
      lookupField d.serialize FieldKey.in_progress = some (JVal.bool true) ∧
      lookupField d.serialize FieldKey.end_time = none) ∧
    (lookupField d.serialize FieldKey.end_time).isSome
      ≠ (lookupField d.serialize FieldKey.in_progress).isSome := by
  refine ⟨?_, ?_, ?_⟩
  · intro e he
    simp [SharedData.serialize, State.serialize, he, lookupField]
  · intro hi
    simp [SharedData.serialize, State.serialize, hi, lookupField]
  · cases hs : d.state with
    | Done e => simp [SharedData.serialize, State.serialize, hs, lookupField]
    | InProgress b => simp [SharedData.serialize, State.serialize, hs, lookupField]

/-- Witness for C5 on a concrete Done record. -/
theorem C5_untagged_state_serialization_witness :
    lookupField dataDone.serialize FieldKey.end_time = some (JVal.num 5) ∧
    lookupField dataDone.serialize FieldKey.in_progress = none :=
  (C5_untagged_state_serialization dataDone).1 5 rfl

/-- C6: calling `end()` on a segment whose state is already Done signals the
reportable `AlreadyDone` fault; it is neither a silent no-op nor a state
change. -/
theorem C6_duplicate_end_rejected (s : Segment) (e t : Seconds)
    (h : s.state = State.Done e) :
    s.end' t = .error EndError.AlreadyDone := by
  rw [Segment.end', h]

/-- Witness for C6 on a concrete Done segment. -/
theorem C6_duplicate_end_rejected_witness :
    segDone.end' 3 = .error EndError.AlreadyDone :=
  C6_duplicate_end_rejected segDone 2 3 rfl

/-- C7: a segment constructed by `begin(name)` is InProgress immediately
after construction, and a single `end()` call — whose clock reading is no
earlier than the construction reading — succeeds and moves it to Done with
`end_time` no earlier than `start_time`. -/
theorem C7_begin_end_lifecycle (name : String) (tid : TraceId) (sid : SegmentId)
    (t tEnd : Seconds) (h : t ≤ tEnd) :
    (Segment.begin name tid sid t).state = State.InProgress true ∧
    ∃ s', (Segment.begin name tid sid t).end' tEnd = .ok s' ∧
      s'.state = State.Done tEnd ∧ s'.start_time ≤ tEnd := by
  exact ⟨rfl, _, rfl, rfl, h⟩

/-- Witness for C7 at concrete clock readings 0 and 1. -/
theorem C7_begin_end_lifecycle_witness :
    (Segment.begin "svc" ⟨0, 0⟩ ⟨0⟩ 0).state = State.InProgress true ∧
    ∃ s', (Segment.begin "svc" ⟨0, 0⟩ ⟨0⟩ 0).end' 1 = .ok s' ∧
      s'.state = State.Done 1 ∧ s'.start_time ≤ 1 :=
  C7_begin_end_lifecycle "svc" ⟨0, 0⟩ ⟨0⟩ 0 1 (by norm_num)

/-- C8: for every constructible header — its trace id and optional parent id
within the generators' ranges — parsing the canonical formatted string
returns exactly the original header. -/
theorem C8_header_roundtrip (h : Header) (hw : h.trace_id.wf)
    (hpw : ∀ p ∈ h.parent_id, p.wf) :
    parseHeader (formatHeader h) = .ok h := by
  obtain ⟨tid, pid, sd⟩ := h
  cases sd with
  | Unknown =>
    simpa [formatHeader] using parseHeader_base_nil tid pid hw hpw
  | NotSampled =>
    have hq : ';' ∉ sampledTag ++ ['0'] := by decide
    rw [formatHeader]
    rw [parseHeader_base_cons tid pid hw hpw _ hq (stripTag_parent_of_sampled _),
      parseSampledField_single]
    rfl
  | Sampled =>
    have hq : ';' ∉ sampledTag ++ ['1'] := by decide
    rw [formatHeader]
    rw [parseHeader_base_cons tid pid hw hpw _ hq (stripTag_parent_of_sampled _),
      parseSampledField_single]
    rfl

/-- Witness for C8 on a concrete header with a parent and a Sampled flag. -/
theorem C8_header_roundtrip_witness :
    parseHeader (formatHeader ⟨tid0, some sid0, SamplingDecision.Sampled⟩)
      = .ok ⟨tid0, some sid0, SamplingDecision.Sampled⟩ :=
  C8_header_roundtrip ⟨tid0, some sid0, SamplingDecision.Sampled⟩ (by decide)
    (fun p hp => wf_of_mem_some (by decide) hp)

/-- C9: every trace id and segment id in the generators' ranges round-trips
through its canonical hex form, and the formatted forms have the documented
fixed shape: 16 hex digits for a segment id; the version marker `1`, an
8-hex-digit epoch field and a 24-hex-digit random field (35 characters in
all) for a trace id. -/
theorem C9_id_roundtrip_and_length :
    (∀ t : TraceId, t.wf →
      parseTraceId (formatTraceId t) = .ok t ∧
      (formatTraceId t).length = 35 ∧
      ∃ e r, formatTraceId t = '1' :: '-' :: (e ++ '-' :: r) ∧
        e.length = 8 ∧ r.length = 24 ∧
        (∀ c ∈ e, (hexVal? c).isSome) ∧ (∀ c ∈ r, (hexVal? c).isSome)) ∧
    (∀ s : SegmentId, s.wf →
      parseSegmentId (formatSegmentId s) = .ok s ∧
      (formatSegmentId s).length = 16 ∧
      ∀ c ∈ formatSegmentId s, (hexVal? c).isSome) := by
  constructor
  · intro t ht
    refine ⟨parseTraceId_format t ht, ?_,
      natToHex t.epoch 8, natToHex t.random 24, rfl,
      natToHex_length _ _, natToHex_length _ _,
      fun c hc => mem_natToHex_isHexDigit _ _ c hc,
      fun c hc => mem_natToHex_isHexDigit _ _ c hc⟩
    simp [formatTraceId, natToHex_length]
  · intro s hs
    exact ⟨parseSegmentId_format s hs, natToHex_length _ _,
      fun c hc => mem_natToHex_isHexDigit _ _ c hc⟩

/-- Witness for C9 on concrete generated identifiers. -/
theorem C9_id_roundtrip_and_length_witness :
    parseTraceId (formatTraceId tid0) = .ok tid0 ∧
    parseSegmentId (formatSegmentId sid0) = .ok sid0 :=
  ⟨(C9_id_roundtrip_and_length.1 tid0 (by decide)).1,
   (C9_id_roundtrip_and_length.2 sid0 (by decide)).1⟩

/-- C10: when a unit of work starts with a NotSampled inbound header,
`on_new_span` returns before storing any segment; consequently a later
close event or causal-follow event for that same span finds the span in the
registry but no stored segment, and hits the missing-segment panic path
instead of completing normally. -/
theorem C10_not_sampled_then_missing_segment_fault (arn : Option String)
    (name : String) (raw : List Char) (id b : SpanId) (tid : TraceId)
    (sid : SegmentId) (now tEnd : Seconds) (st : TState) (h : Header)
    (hp : parseHeader raw = .ok h)
    (hs : h.sampling_decision = SamplingDecision.NotSampled)
    (hr : id ∈ st.registry) (hn : st.lookupExt id = none) :
    XRay.on_new_span arn name (some raw) id tid sid now st = .ok st ∧
    XRay.on_close id tEnd st = .error "span does not have XRay segment" ∧
    XRay.on_follows_from id b st = .error "span does not have XRay segment" := by
  refine ⟨?_, ?_, ?_⟩
  · simp [XRay.on_new_span, hp, hs]
  · simp [XRay.on_close, hr, hn]
  · simp [XRay.on_follows_from, hr, hn]

/-- Witness for C10 on a concrete unsampled start followed by a close and a
follow for the same span. -/
theorem C10_not_sampled_then_missing_segment_fault_witness :
    XRay.on_new_span none "svc" (some hdrNotSampledRaw) 1 ⟨0, 0⟩ ⟨0⟩ 0 stEmpty1
      = .ok stEmpty1 ∧
    XRay.on_close 1 5 stEmpty1 = .error "span does not have XRay segment" ∧
    XRay.on_follows_from 1 2 stEmpty1
      = .error "span does not have XRay segment" :=
  C10_not_sampled_then_missing_segment_fault none "svc" hdrNotSampledRaw 1 2
    ⟨0, 0⟩ ⟨0⟩ 0 5 stEmpty1 hdrNotSampled (by decide) rfl (by decide) rfl

end TracingXRay
